import Mathlib

/-!
Verification development for the Google Drive watch-channel lifecycle manager
found in `cmd/sheetcontent/main.go`.

The Go program keeps an in-memory registry `activeChannels : map[string]*ChannelInfo`
guarded by a mutex, mirrors it to a JSON state file (`.drive-channels.json`),
and talks to two remote Drive API endpoints (`Files.Watch`, `Channels.Stop`).

Shallow embedding choices:
* the registry is an association list `List (String × ChannelInfo)`;
  Go map assignment / delete / lookup become `mapInsert` / `mapDelete` /
  `mapLookup`;
* `time.Time` values are Unix-millisecond integers (the program itself only
  builds times via `UnixMilli`);
* the state file is `store : Option Registry` inside the watcher state
  (`none` = file absent, mirroring `os.IsNotExist`);
* the remote Drive API and the nondeterministic inputs of one operation
  (current time, freshly generated uuid, success of file writes/removes) are
  packaged in an `Env` record: `filesWatch` returns the remote response to a
  watch request (`none` = the call errored), `channelsStop` tells whether a
  `Channels.Stop` call for a given (id, resourceId) succeeds.
-/

namespace DriveWatch

/-- `ChannelInfo` from main.go: one outstanding subscription
(`Id`, `ResourceId`, `FileId`, `Expiration time.Time` as Unix millis). -/
structure ChannelInfo where
  Id : String
  ResourceId : String
  FileId : String
  Expiration : Int
deriving DecidableEq, Repr

/-- The registry `activeChannels map[string]*ChannelInfo` as an association list. -/
abbrev Registry := List (String × ChannelInfo)

/-- Go `delete(m, k)`. -/
def mapDelete (r : Registry) (k : String) : Registry :=
  r.filter (fun p => p.1 != k)

/-- Go `m[k] = v` (replace any entry for `k`, add the binding). -/
def mapInsert (r : Registry) (k : String) (v : ChannelInfo) : Registry :=
  mapDelete r k ++ [(k, v)]

/-- Go `info, exists := m[k]` (`none` = absent). -/
def mapLookup (r : Registry) (k : String) : Option ChannelInfo :=
  (r.find? (fun p => p.1 == k)).map (·.2)

/-- Watcher state: the in-memory registry plus the persisted state file.
`store = none` models an absent `.drive-channels.json`. -/
structure DriveWatcher where
  webhookURL : String
  activeChannels : Registry
  store : Option Registry
deriving DecidableEq, Repr

/-- The `drive.Channel` request body built by `createWatch`. -/
structure ChannelRequest where
  id : String
  typ : String
  address : String
  expiration : Int
  token : String

/-- The fields of the `drive.Channel` response of `Files.Watch` that the code
reads (`result.Id`, `result.ResourceId`, `result.Expiration`). -/
structure WatchResult where
  id : String
  resourceId : String
  expiration : Int

/-- Nondeterministic inputs of one lifecycle operation: current time,
the uuid `uuid.New().String()` would generate, the remote API behaviour,
and whether `os.WriteFile` / `os.Remove` succeed. -/
structure Env where
  now : Int
  uuid : String
  filesWatch : String → ChannelRequest → Option WatchResult
  channelsStop : String → String → Bool
  writeOk : Bool
  removeOk : Bool

/-- `MaxChannelDuration = 24 * time.Hour`, in milliseconds. -/
def MaxChannelDuration : Int := 24 * 60 * 60 * 1000

/-- `saveState`: under the lock, if the registry is empty remove the state
file (the result of `os.Remove` is discarded) and return `nil`; otherwise
marshal and `os.WriteFile` (which can fail). Returns (new state, error?). -/
def saveState (env : Env) (dw : DriveWatcher) : DriveWatcher × Option String :=
  if dw.activeChannels.isEmpty then
    ({ dw with store := if env.removeOk then none else dw.store }, none)
  else
    if env.writeOk then
      ({ dw with store := some dw.activeChannels }, none)
    else
      (dw, some "failed to write state")

/-- `loadState`: a missing file is not an error and leaves the channel map
alone; otherwise the parsed `state.Channels` replaces it (a `nil` map becomes
the empty map — in the model `some []` already is the empty registry). -/
def loadState (dw : DriveWatcher) : DriveWatcher :=
  match dw.store with
  | none => dw
  | some m => { dw with activeChannels := m }

/-- The loop body of `cleanupOldChannels`: for each snapshotted channel, try
the remote stop (counting successes), then delete it from the registry by its
`Id` regardless of the outcome. Returns (registry, stoppedCount). -/
def stopLoop (env : Env) : List ChannelInfo → Registry → Nat → Registry × Nat
  | [], reg, cnt => (reg, cnt)
  | info :: rest, reg, cnt =>
      let cnt' := if env.channelsStop info.Id info.ResourceId then cnt + 1 else cnt
      stopLoop env rest (mapDelete reg info.Id) cnt'

/-- `cleanupOldChannels(fileId)`: snapshot every entry whose `FileId` matches,
stop-and-delete each, and call `saveState` only when `stoppedCount > 0`. -/
def cleanupOldChannels (env : Env) (dw : DriveWatcher) (fileId : String) : DriveWatcher :=
  let channelsToStop := (dw.activeChannels.filter (fun p => p.2.FileId == fileId)).map (·.2)
  let res := stopLoop env channelsToStop dw.activeChannels 0
  let dw' := { dw with activeChannels := res.1 }
  if res.2 > 0 then (saveState env dw').1 else dw'

/-- `cleanupExpiredChannels`: delete every entry with `Expiration.Before(now)`
and call `saveState` only when at least one was removed. -/
def cleanupExpiredChannels (env : Env) (dw : DriveWatcher) : DriveWatcher :=
  let expired := dw.activeChannels.filter (fun p => decide (p.2.Expiration < env.now))
  let dw' := { dw with
    activeChannels := dw.activeChannels.filter (fun p => !decide (p.2.Expiration < env.now)) }
  if expired.length > 0 then (saveState env dw').1 else dw'

/-- The `drive.Channel` request that `createWatch` builds: fresh uuid,
`web_hook` type, the watcher's callback address, requested expiration
`now + MaxChannelDuration`, and a per-channel secret token. -/
def watchRequest (env : Env) (webhookURL : String) : ChannelRequest :=
  { id := env.uuid
    typ := "web_hook"
    address := webhookURL
    expiration := env.now + MaxChannelDuration
    token := "secret-" ++ env.uuid }

/-- `createWatch(fileId)`: issue `Files.Watch`; on failure return the error
with nothing changed; on success record the authoritative `result.Id`,
`result.ResourceId`, `result.Expiration` in the registry under `result.Id`,
persist (a save error is only logged), and return the new info. -/
def createWatch (env : Env) (dw : DriveWatcher) (fileId : String) :
    DriveWatcher × Option ChannelInfo :=
  match env.filesWatch fileId (watchRequest env dw.webhookURL) with
  | none => (dw, none)
  | some result =>
      let info : ChannelInfo :=
        { Id := result.id
          ResourceId := result.resourceId
          FileId := fileId
          Expiration := result.expiration }
      let dw' := { dw with activeChannels := mapInsert dw.activeChannels result.id info }
      ((saveState env dw').1, some info)

/-- `WatchFile(fileId)`: cleanup old channels for the file, cleanup expired
channels, then create the new watch. -/
def WatchFile (env : Env) (dw : DriveWatcher) (fileId : String) :
    DriveWatcher × Option ChannelInfo :=
  createWatch env (cleanupExpiredChannels env (cleanupOldChannels env dw fileId)) fileId

/-- The two error results of `StopWatch`. -/
inductive StopError where
  | notFound
  | remoteStopFailed
deriving DecidableEq, Repr

/-- `StopWatch(channelId)`: `NotFound` if absent; otherwise remote stop with
the stored `Id`/`ResourceId`; on remote failure return the error without
deleting; on success delete the entry and persist (save errors only logged). -/
def StopWatch (env : Env) (dw : DriveWatcher) (channelId : String) :
    DriveWatcher × Option StopError :=
  match mapLookup dw.activeChannels channelId with
  | none => (dw, some .notFound)
  | some info =>
      if env.channelsStop info.Id info.ResourceId then
        ((saveState env { dw with activeChannels := mapDelete dw.activeChannels channelId }).1,
          none)
      else
        (dw, some .remoteStopFailed)

/-- `RenewWatch(fileId, oldChannelId)`: best-effort `StopWatch` of the old
channel (failure only logged), then `createWatch` — no full cleanup pass. -/
def RenewWatch (env : Env) (dw : DriveWatcher) (fileId oldChannelId : String) :
    DriveWatcher × Option ChannelInfo :=
  createWatch env (StopWatch env dw oldChannelId).1 fileId

/-- The headers the `WebhookHandler` extracts from the inbound request. -/
structure DriveNotification where
  ChannelId : String
  ResourceId : String
  ResourceState : String
  ResourceURI : String
  MessageNumber : String
  Expiration : String
deriving DecidableEq, Repr

/-- The HTTP method of the inbound request (anything but POST is rejected). -/
inductive HttpMethod where
  | post
  | other
deriving DecidableEq, Repr

/-- Observable outcome of the handler: the HTTP status written and whether
`go dw.handleFileChange(notification)` was launched. -/
structure WebhookResponse where
  status : Nat
  downstreamCalled : Bool
deriving DecidableEq, Repr

/-- `WebhookHandler` (main.go, the full variant): reject non-POST with 405;
drop events whose channel id is not in the registry with a 200; for known
channels dispatch `handleFileChange` on `change`/`update` (a `sync` or an
unknown state is only logged); always answer 200. The registry is returned
unchanged — the handler performs no mutation. -/
def WebhookHandler (dw : DriveWatcher) (method : HttpMethod) (n : DriveNotification) :
    DriveWatcher × WebhookResponse :=
  if method ≠ HttpMethod.post then
    (dw, { status := 405, downstreamCalled := false })
  else
    let isOurs := (mapLookup dw.activeChannels n.ChannelId).isSome
    if !isOurs then
      (dw, { status := 200, downstreamCalled := false })
    else if n.ResourceState == "sync" then
      (dw, { status := 200, downstreamCalled := false })
    else if n.ResourceState == "change" then
      (dw, { status := 200, downstreamCalled := true })
    else if n.ResourceState == "update" then
      (dw, { status := 200, downstreamCalled := true })
    else
      (dw, { status := 200, downstreamCalled := false })

/-- One lifecycle operation on the watcher state, with the nondeterministic
inputs it consumed. -/
inductive Op where
  | create (env : Env) (fileId : String)
  | stop (env : Env) (channelId : String)
  | cleanOld (env : Env) (fileId : String)
  | cleanExpired (env : Env)

/-- Apply one operation, discarding its return value. -/
def applyOp (dw : DriveWatcher) : Op → DriveWatcher
  | .create env fileId => (createWatch env dw fileId).1
  | .stop env channelId => (StopWatch env dw channelId).1
  | .cleanOld env fileId => cleanupOldChannels env dw fileId
  | .cleanExpired env => cleanupExpiredChannels env dw

/-- Run a sequence of operations. -/
def runOps (dw : DriveWatcher) (ops : List Op) : DriveWatcher :=
  ops.foldl applyOp dw

/-- A watcher that just started with nothing persisted: empty registry. -/
def initialWatcher (url : String) : DriveWatcher :=
  { webhookURL := url, activeChannels := [], store := none }

/-- Every registry entry is stored under the key equal to its `Id` field. -/
def keysMatchIds (r : Registry) : Bool :=
  r.all (fun p => p.2.Id == p.1)

/-- What the state file holds once `saveState` ran with an honest filesystem:
absent for an empty registry, the full registry otherwise. -/
def persistedView (r : Registry) : Option Registry :=
  if r.isEmpty then none else some r

/-- The `ChannelInfo` that `createWatch` builds from the remote response. -/
def remoteInfo (result : WatchResult) (fileId : String) : ChannelInfo :=
  { Id := result.id
    ResourceId := result.resourceId
    FileId := fileId
    Expiration := result.expiration }

/-- A run of consecutive `WatchFile fileId` calls, keeping only the state. -/
def watchSeq (fileId : String) (dw : DriveWatcher) (envs : List Env) : DriveWatcher :=
  envs.foldl (fun s e => (WatchFile e s fileId).1) dw

/-- Concrete inputs used by witnesses and counterexamples. -/
def c1Info : ChannelInfo := { Id := "old", ResourceId := "r1", FileId := "f", Expiration := 50 }

def c1Env : Env :=
  { now := 0, uuid := "u1"
    filesWatch := fun _ _ => some { id := "new", resourceId := "r2", expiration := 100 }
    channelsStop := fun _ _ => false, writeOk := true, removeOk := true }

def c1Dw : DriveWatcher :=
  { webhookURL := "cb", activeChannels := [("old", c1Info)], store := some [("old", c1Info)] }

def c1EnvOk : Env := { c1Env with channelsStop := fun _ _ => true }

def c2Env : Env :=
  { now := 0, uuid := "u2"
    filesWatch := fun _ _ => some { id := "c1", resourceId := "r1", expiration := 100 }
    channelsStop := fun _ _ => true, writeOk := true, removeOk := true }

def c2Dw : DriveWatcher := { webhookURL := "cb", activeChannels := [], store := none }

def c3Info : ChannelInfo := { Id := "a", ResourceId := "r1", FileId := "f", Expiration := 100 }

def c3Env : Env :=
  { now := 0, uuid := "u3", filesWatch := fun _ _ => none
    channelsStop := fun _ _ => false, writeOk := true, removeOk := true }

def c3Dw : DriveWatcher :=
  { webhookURL := "cb", activeChannels := [("a", c3Info)], store := some [("a", c3Info)] }

def c3EnvOk : Env := { c3Env with channelsStop := fun _ _ => true }

def c4Info : ChannelInfo := { Id := "x", ResourceId := "rx", FileId := "f", Expiration := 100 }

def c4Env : Env :=
  { now := 0, uuid := "u4", filesWatch := fun _ _ => none
    channelsStop := fun _ _ => true, writeOk := true, removeOk := true }

def c4Dw : DriveWatcher :=
  { webhookURL := "cb", activeChannels := [("x", c4Info)], store := some [("x", c4Info)] }

def c5Env : Env :=
  { now := 0, uuid := "u5", filesWatch := fun _ _ => none
    channelsStop := fun _ _ => true, writeOk := true, removeOk := true }

def c5Dw : DriveWatcher := { webhookURL := "cb", activeChannels := [], store := none }

def c6Info : ChannelInfo := { Id := "k", ResourceId := "rk", FileId := "g", Expiration := 7 }

def c6Env : Env :=
  { now := 0, uuid := "u6", filesWatch := fun _ _ => none
    channelsStop := fun _ _ => true, writeOk := true, removeOk := true }

def c6Dw : DriveWatcher :=
  { webhookURL := "cb", activeChannels := [("k", c6Info)], store := none }

def c8Env : Env :=
  { now := 0, uuid := "u8"
    filesWatch := fun _ _ => some { id := "c8", resourceId := "r8", expiration := 42 }
    channelsStop := fun _ _ => true, writeOk := true, removeOk := true }

def c8Dw : DriveWatcher := { webhookURL := "cb", activeChannels := [], store := none }

def c10Info : ChannelInfo := { Id := "z", ResourceId := "rz", FileId := "h", Expiration := 3 }

def c10Env : Env :=
  { now := 0, uuid := "u10", filesWatch := fun _ _ => none
    channelsStop := fun _ _ => true, writeOk := true, removeOk := false }

def c10Dw : DriveWatcher := { webhookURL := "cb", activeChannels := [], store := some [("z", c10Info)] }

theorem mem_mapDelete {r : Registry} {k : String} {p : String × ChannelInfo}
    (h : p ∈ mapDelete r k) : p ∈ r :=
  (List.mem_filter.mp h).1

theorem key_ne_of_mem_mapDelete {r : Registry} {k : String} {p : String × ChannelInfo}
    (h : p ∈ mapDelete r k) : p.1 ≠ k := by
  have := (List.mem_filter.mp h).2
  simpa using this

theorem mapLookup_eq_none_iff {r : Registry} {k : String} :
    mapLookup r k = none ↔ ∀ p ∈ r, p.1 ≠ k := by
  simp [mapLookup, List.find?_eq_none]

theorem mapLookup_delete_self (r : Registry) (k : String) :
    mapLookup (mapDelete r k) k = none :=
  mapLookup_eq_none_iff.mpr (fun _ hp => key_ne_of_mem_mapDelete hp)

theorem mapLookup_delete_ne (r : Registry) {k k' : String} (h : k' ≠ k) :
    mapLookup (mapDelete r k) k' = mapLookup r k' := by
  induction r with
  | nil => rfl
  | cons p r ih =>
      by_cases hpk : p.1 = k
      · have hne : p.1 ≠ k' := fun hh => h (hh ▸ hpk)
        simp only [mapDelete, List.filter_cons] at *
        simp only [hpk, bne_self_eq_false, Bool.false_eq_true, if_false]
        rw [show mapLookup (p :: r) k' = mapLookup r k' by
          simp [mapLookup, List.find?_cons_of_neg, hne]]
        exact ih
      · simp only [mapDelete, List.filter_cons] at *
        simp only [bne_iff_ne, ne_eq, hpk, not_false_iff, if_true]
        by_cases hk' : p.1 = k'
        · simp [mapLookup, List.find?_cons_of_pos, hk']
        · rw [show mapLookup (p :: List.filter (fun p => p.1 != k) r) k'
              = mapLookup (List.filter (fun p => p.1 != k) r) k' by
            simp [mapLookup, List.find?_cons_of_neg, hk']]
          rw [show mapLookup (p :: r) k' = mapLookup r k' by
            simp [mapLookup, List.find?_cons_of_neg, hk']]
          exact ih

theorem mapLookup_insert_self (r : Registry) (k : String) (v : ChannelInfo) :
    mapLookup (mapInsert r k v) k = some v := by
  have hfind : (mapDelete r k).find? (fun p => p.1 == k) = none := by
    rw [List.find?_eq_none]
    intro p hp
    simpa using key_ne_of_mem_mapDelete hp
  simp [mapInsert, mapLookup, List.find?_append, hfind]

theorem mapLookup_insert_ne (r : Registry) {k k' : String} (v : ChannelInfo) (h : k' ≠ k) :
    mapLookup (mapInsert r k v) k' = mapLookup r k' := by
  have hk : ((k, v).1 == k') = false := by
    simp only [beq_eq_false_iff_ne, ne_eq]
    exact fun hh => h hh.symm
  have htail : mapLookup [(k, v)] k' = none := by
    have hfind : List.find? (fun p => p.1 == k') ([(k, v)] : Registry) = none := by
      rw [List.find?_eq_none]
      intro p hp
      simp only [List.mem_singleton] at hp
      subst hp
      simpa using fun hh => h hh.symm
    simp [mapLookup, hfind]
  have : mapLookup (mapInsert r k v) k'
      = ((mapLookup (mapDelete r k) k').or (mapLookup [(k, v)] k')) := by
    simp only [mapInsert, mapLookup, List.find?_append]
    cases (mapDelete r k).find? (fun p => p.1 == k') <;>
      cases ([(k, v)] : Registry).find? (fun p => p.1 == k') <;> rfl
  rw [this, htail, mapLookup_delete_ne r h]
  cases mapLookup r k' <;> rfl

theorem saveState_activeChannels (env : Env) (dw : DriveWatcher) :
    (saveState env dw).1.activeChannels = dw.activeChannels := by
  unfold saveState
  split
  · rfl
  · split
    · rfl
    · rfl

theorem saveState_webhookURL (env : Env) (dw : DriveWatcher) :
    (saveState env dw).1.webhookURL = dw.webhookURL := by
  unfold saveState
  split
  · rfl
  · split
    · rfl
    · rfl

theorem stopLoop_subset (env : Env) (l : List ChannelInfo) (reg : Registry) (cnt : Nat) :
    ∀ p ∈ (stopLoop env l reg cnt).1, p ∈ reg := by
  induction l generalizing reg cnt with
  | nil => intro p hp; exact hp
  | cons info rest ih =>
      intro p hp
      exact mem_mapDelete (ih (mapDelete reg info.Id) _ p hp)

theorem stopLoop_key_ne (env : Env) (l : List ChannelInfo) (reg : Registry) (cnt : Nat)
    {info : ChannelInfo} :
    info ∈ l → ∀ p ∈ (stopLoop env l reg cnt).1, p.1 ≠ info.Id := by
  induction l generalizing reg cnt with
  | nil => intro hmem; cases hmem
  | cons hd rest ih =>
      intro hmem p hp
      rcases List.mem_cons.mp hmem with rfl | hmem'
      · exact key_ne_of_mem_mapDelete
          (stopLoop_subset env rest (mapDelete reg info.Id) _ p hp)
      · exact ih (mapDelete reg hd.Id) _ hmem' p hp

theorem stopLoop_count_const (env : Env) (l : List ChannelInfo) (reg : Registry) (cnt : Nat)
    (h : ∀ info ∈ l, env.channelsStop info.Id info.ResourceId = false) :
    (stopLoop env l reg cnt).2 = cnt := by
  induction l generalizing reg cnt with
  | nil => rfl
  | cons hd rest ih =>
      have hhd := h hd (List.mem_cons_self hd rest)
      simp only [stopLoop, hhd, Bool.false_eq_true, if_false]
      exact ih (mapDelete reg hd.Id) cnt (fun info hi => h info (List.mem_cons_of_mem hd hi))

theorem stopLoop_count_le (env : Env) (l : List ChannelInfo) (reg : Registry) (cnt : Nat) :
    cnt ≤ (stopLoop env l reg cnt).2 := by
  induction l generalizing reg cnt with
  | nil => exact Nat.le_refl cnt
  | cons hd rest ih =>
      simp only [stopLoop]
      split
      · exact Nat.le_trans (Nat.le_succ cnt) (ih (mapDelete reg hd.Id) (cnt + 1))
      · exact ih (mapDelete reg hd.Id) cnt

theorem stopLoop_count_pos (env : Env) (l : List ChannelInfo) (reg : Registry) (cnt : Nat)
    {info : ChannelInfo} (h : env.channelsStop info.Id info.ResourceId = true) :
    info ∈ l → cnt < (stopLoop env l reg cnt).2 := by
  induction l generalizing reg cnt with
  | nil => intro hmem; cases hmem
  | cons hd rest ih =>
      intro hmem
      rcases List.mem_cons.mp hmem with rfl | hmem'
      · simp only [stopLoop, h, if_true]
        exact Nat.lt_of_lt_of_le (Nat.lt_succ_self cnt)
          (stopLoop_count_le env rest (mapDelete reg info.Id) (cnt + 1))
      · simp only [stopLoop]
        split
        · exact Nat.lt_of_lt_of_le (Nat.lt_succ_self cnt)
            (stopLoop_count_le env rest (mapDelete reg hd.Id) (cnt + 1))
        · exact ih (mapDelete reg hd.Id) cnt hmem'

theorem keysMatchIds_of_subset {r r' : Registry} (hsub : ∀ p ∈ r', p ∈ r)
    (h : keysMatchIds r = true) : keysMatchIds r' = true := by
  rw [keysMatchIds, List.all_eq_true] at *
  exact fun p hp => h p (hsub p hp)

theorem cleanupOldChannels_activeChannels (env : Env) (dw : DriveWatcher) (fileId : String) :
    (cleanupOldChannels env dw fileId).activeChannels
      = (stopLoop env
          ((dw.activeChannels.filter (fun p => p.2.FileId == fileId)).map (·.2))
          dw.activeChannels 0).1 := by
  simp only [cleanupOldChannels]
  split
  · rw [saveState_activeChannels]
  · rfl

theorem cleanupOldChannels_webhookURL (env : Env) (dw : DriveWatcher) (fileId : String) :
    (cleanupOldChannels env dw fileId).webhookURL = dw.webhookURL := by
  simp only [cleanupOldChannels]
  split
  · rw [saveState_webhookURL]
  · rfl

theorem cleanupExpiredChannels_activeChannels (env : Env) (dw : DriveWatcher) :
    (cleanupExpiredChannels env dw).activeChannels
      = dw.activeChannels.filter (fun p => !decide (p.2.Expiration < env.now)) := by
  simp only [cleanupExpiredChannels]
  split
  · rw [saveState_activeChannels]
  · rfl

theorem cleanupExpiredChannels_webhookURL (env : Env) (dw : DriveWatcher) :
    (cleanupExpiredChannels env dw).webhookURL = dw.webhookURL := by
  simp only [cleanupExpiredChannels]
  split
  · rw [saveState_webhookURL]
  · rfl

/-- After `cleanupOldChannels(fileId)` on a registry whose keys match the
stored `Id`s, no entry for `fileId` remains. -/
theorem cleanupOldChannels_clears_fileId (env : Env) (dw : DriveWatcher) (fileId : String)
    (hkeys : keysMatchIds dw.activeChannels = true) :
    ∀ p ∈ (cleanupOldChannels env dw fileId).activeChannels, p.2.FileId ≠ fileId := by
  intro p hp hfile
  rw [cleanupOldChannels_activeChannels] at hp
  have hpreg : p ∈ dw.activeChannels :=
    stopLoop_subset env _ dw.activeChannels 0 p hp
  have hpfilter : p ∈ dw.activeChannels.filter (fun p => p.2.FileId == fileId) :=
    List.mem_filter.mpr ⟨hpreg, by simp [hfile]⟩
  have hpsnap : p.2 ∈ (dw.activeChannels.filter (fun p => p.2.FileId == fileId)).map (·.2) :=
    List.mem_map.mpr ⟨p, hpfilter, rfl⟩
  have hne := stopLoop_key_ne env _ dw.activeChannels 0 hpsnap p hp
  rw [keysMatchIds, List.all_eq_true] at hkeys
  have heq : p.2.Id = p.1 := by simpa using hkeys p hpreg
  exact hne heq.symm

theorem saveState_store_honest (env : Env) (dw : DriveWatcher)
    (hw : env.writeOk = true) (hr : env.removeOk = true) :
    (saveState env dw).1.store = persistedView dw.activeChannels := by
  unfold saveState persistedView
  by_cases h : dw.activeChannels.isEmpty
  · simp [h, hr]
  · simp [h, hw]

theorem createWatch_webhookURL (env : Env) (dw : DriveWatcher) (fileId : String) :
    (createWatch env dw fileId).1.webhookURL = dw.webhookURL := by
  unfold createWatch
  split
  · rfl
  · rw [saveState_webhookURL]

theorem StopWatch_webhookURL (env : Env) (dw : DriveWatcher) (channelId : String) :
    (StopWatch env dw channelId).1.webhookURL = dw.webhookURL := by
  unfold StopWatch
  split
  · rfl
  · split
    · rw [saveState_webhookURL]
    · rfl

theorem WatchFile_webhookURL (env : Env) (dw : DriveWatcher) (fileId : String) :
    (WatchFile env dw fileId).1.webhookURL = dw.webhookURL := by
  unfold WatchFile
  rw [createWatch_webhookURL, cleanupExpiredChannels_webhookURL, cleanupOldChannels_webhookURL]

theorem keysMatchIds_mapInsert {r : Registry} {k : String} {v : ChannelInfo}
    (h : keysMatchIds r = true) (hv : v.Id = k) : keysMatchIds (mapInsert r k v) = true := by
  rw [keysMatchIds, List.all_eq_true] at *
  intro p hp
  rcases List.mem_append.mp hp with hp' | hp'
  · exact h p (mem_mapDelete hp')
  · simp only [List.mem_singleton] at hp'
    subst hp'
    simpa using hv

theorem createWatch_keys (env : Env) (dw : DriveWatcher) (fileId : String)
    (h : keysMatchIds dw.activeChannels = true) :
    keysMatchIds (createWatch env dw fileId).1.activeChannels = true := by
  unfold createWatch
  split
  · exact h
  · rw [saveState_activeChannels]
    exact keysMatchIds_mapInsert h rfl

theorem StopWatch_keys (env : Env) (dw : DriveWatcher) (channelId : String)
    (h : keysMatchIds dw.activeChannels = true) :
    keysMatchIds (StopWatch env dw channelId).1.activeChannels = true := by
  unfold StopWatch
  split
  · exact h
  · split
    · rw [saveState_activeChannels]
      exact keysMatchIds_of_subset (fun p hp => mem_mapDelete hp) h
    · exact h

theorem cleanupOldChannels_keys (env : Env) (dw : DriveWatcher) (fileId : String)
    (h : keysMatchIds dw.activeChannels = true) :
    keysMatchIds (cleanupOldChannels env dw fileId).activeChannels = true := by
  rw [cleanupOldChannels_activeChannels]
  exact keysMatchIds_of_subset (stopLoop_subset env _ dw.activeChannels 0) h

theorem cleanupExpiredChannels_keys (env : Env) (dw : DriveWatcher)
    (h : keysMatchIds dw.activeChannels = true) :
    keysMatchIds (cleanupExpiredChannels env dw).activeChannels = true := by
  rw [cleanupExpiredChannels_activeChannels]
  exact keysMatchIds_of_subset (fun p hp => (List.mem_filter.mp hp).1) h

theorem WatchFile_keys (env : Env) (dw : DriveWatcher) (fileId : String)
    (h : keysMatchIds dw.activeChannels = true) :
    keysMatchIds (WatchFile env dw fileId).1.activeChannels = true :=
  createWatch_keys env _ fileId
    (cleanupExpiredChannels_keys env _ (cleanupOldChannels_keys env dw fileId h))

theorem applyOp_keys (dw : DriveWatcher) (op : Op)
    (h : keysMatchIds dw.activeChannels = true) :
    keysMatchIds (applyOp dw op).activeChannels = true := by
  cases op with
  | create env fileId => exact createWatch_keys env dw fileId h
  | stop env channelId => exact StopWatch_keys env dw channelId h
  | cleanOld env fileId => exact cleanupOldChannels_keys env dw fileId h
  | cleanExpired env => exact cleanupExpiredChannels_keys env dw h

theorem runOps_keys (ops : List Op) (dw : DriveWatcher)
    (h : keysMatchIds dw.activeChannels = true) :
    keysMatchIds (runOps dw ops).activeChannels = true := by
  induction ops generalizing dw with
  | nil => exact h
  | cons op rest ih => exact ih (applyOp dw op) (applyOp_keys dw op h)

theorem createWatch_some (env : Env) (dw : DriveWatcher) (fileId : String)
    (result : WatchResult)
    (hwatch : env.filesWatch fileId (watchRequest env dw.webhookURL) = some result) :
    (createWatch env dw fileId).1.activeChannels
        = mapInsert dw.activeChannels result.id (remoteInfo result fileId)
    ∧ (createWatch env dw fileId).2 = some (remoteInfo result fileId) := by
  unfold createWatch
  rw [hwatch]
  exact ⟨saveState_activeChannels env _, rfl⟩

theorem createWatch_some_store (env : Env) (dw : DriveWatcher) (fileId : String)
    (result : WatchResult)
    (hwatch : env.filesWatch fileId (watchRequest env dw.webhookURL) = some result)
    (hw : env.writeOk = true) (hr : env.removeOk = true) :
    (createWatch env dw fileId).1.store
        = persistedView (createWatch env dw fileId).1.activeChannels := by
  have h1 := (createWatch_some env dw fileId result hwatch).1
  unfold createWatch at *
  rw [hwatch] at *
  rw [saveState_store_honest env _ hw hr, h1]
  rfl

theorem watchFile_filter_singleton (env : Env) (dw : DriveWatcher) (fileId : String)
    (result : WatchResult)
    (hkeys : keysMatchIds dw.activeChannels = true)
    (hwatch : env.filesWatch fileId (watchRequest env dw.webhookURL) = some result) :
    (WatchFile env dw fileId).1.activeChannels.filter (fun p => p.2.FileId == fileId)
      = [(result.id, remoteInfo result fileId)] := by
  have hurl : (cleanupExpiredChannels env (cleanupOldChannels env dw fileId)).webhookURL
      = dw.webhookURL := by
    rw [cleanupExpiredChannels_webhookURL, cleanupOldChannels_webhookURL]
  have hwatch2 : env.filesWatch fileId (watchRequest env
      (cleanupExpiredChannels env (cleanupOldChannels env dw fileId)).webhookURL)
      = some result := by
    rw [hurl]; exact hwatch
  have hno : ∀ p ∈ (cleanupExpiredChannels env (cleanupOldChannels env dw fileId)).activeChannels,
      p.2.FileId ≠ fileId := by
    intro p hp
    rw [cleanupExpiredChannels_activeChannels] at hp
    exact cleanupOldChannels_clears_fileId env dw fileId hkeys p (List.mem_filter.mp hp).1
  have hcw := (createWatch_some env _ fileId result hwatch2).1
  unfold WatchFile
  rw [hcw, mapInsert, List.filter_append]
  have h1 : (mapDelete (cleanupExpiredChannels env
        (cleanupOldChannels env dw fileId)).activeChannels result.id).filter
      (fun p => p.2.FileId == fileId) = [] := by
    rw [List.filter_eq_nil_iff]
    intro p hp
    simpa using hno p (mem_mapDelete hp)
  rw [h1]
  simp [remoteInfo]

theorem watchSeq_keys (fileId : String) (envs : List Env) (dw : DriveWatcher)
    (h : keysMatchIds dw.activeChannels = true) :
    keysMatchIds (watchSeq fileId dw envs).activeChannels = true := by
  induction envs generalizing dw with
  | nil => exact h
  | cons e rest ih => exact ih (WatchFile e dw fileId).1 (WatchFile_keys e dw fileId h)

theorem watchSeq_webhookURL (fileId : String) (envs : List Env) (dw : DriveWatcher) :
    (watchSeq fileId dw envs).webhookURL = dw.webhookURL := by
  induction envs generalizing dw with
  | nil => rfl
  | cons e rest ih =>
      rw [show watchSeq fileId dw (e :: rest) = watchSeq fileId (WatchFile e dw fileId).1 rest
        from rfl]
      rw [ih, WatchFile_webhookURL]

/-- C4: `StopWatch(channelId)` returns `NotFound` iff the id is absent from
the registry, and then mutates nothing; if the id is present and the remote
stop fails, the error is returned and the entry is kept; if the remote stop
succeeds, the entry is deleted and the registry is persisted. -/
theorem stopWatch_contract (env : Env) (dw : DriveWatcher) (channelId : String)
    (hw : env.writeOk = true) (hr : env.removeOk = true) :
    ((StopWatch env dw channelId).2 = some .notFound
        ↔ mapLookup dw.activeChannels channelId = none)
    ∧ (mapLookup dw.activeChannels channelId = none →
        StopWatch env dw channelId = (dw, some .notFound))
    ∧ (∀ info, mapLookup dw.activeChannels channelId = some info →
        env.channelsStop info.Id info.ResourceId = false →
        StopWatch env dw channelId = (dw, some .remoteStopFailed))
    ∧ (∀ info, mapLookup dw.activeChannels channelId = some info →
        env.channelsStop info.Id info.ResourceId = true →
        (StopWatch env dw channelId).2 = none
        ∧ (StopWatch env dw channelId).1.activeChannels
            = mapDelete dw.activeChannels channelId
        ∧ (StopWatch env dw channelId).1.store
            = persistedView (mapDelete dw.activeChannels channelId)) := by
  refine ⟨?_, ?_, ?_, ?_⟩
  · cases hlook : mapLookup dw.activeChannels channelId with
    | none => simp [StopWatch, hlook]
    | some info =>
        by_cases hs : env.channelsStop info.Id info.ResourceId
        · simp [StopWatch, hlook, hs]
        · simp only [Bool.not_eq_true] at hs
          simp [StopWatch, hlook, hs]
  · intro hlook
    simp [StopWatch, hlook]
  · intro info hlook hs
    simp [StopWatch, hlook, hs]
  · intro info hlook hs
    refine ⟨?_, ?_, ?_⟩
    · simp [StopWatch, hlook, hs]
    · simp only [StopWatch, hlook, hs, if_true]
      rw [saveState_activeChannels]
    · simp only [StopWatch, hlook, hs, if_true]
      rw [saveState_store_honest env _ hw hr]

/-- C4 witness: concrete registry with channel "x"; the remote stop succeeds,
so the entry is removed and the now-empty registry is persisted as an absent
document. -/
theorem stopWatch_contract_witness :
    ((StopWatch c4Env c4Dw "x").2 = some .notFound
        ↔ mapLookup c4Dw.activeChannels "x" = none)
    ∧ (mapLookup c4Dw.activeChannels "x" = none →
        StopWatch c4Env c4Dw "x" = (c4Dw, some .notFound))
    ∧ (∀ info, mapLookup c4Dw.activeChannels "x" = some info →
        c4Env.channelsStop info.Id info.ResourceId = false →
        StopWatch c4Env c4Dw "x" = (c4Dw, some .remoteStopFailed))
    ∧ (∀ info, mapLookup c4Dw.activeChannels "x" = some info →
        c4Env.channelsStop info.Id info.ResourceId = true →
        (StopWatch c4Env c4Dw "x").2 = none
        ∧ (StopWatch c4Env c4Dw "x").1.activeChannels
            = mapDelete c4Dw.activeChannels "x"
        ∧ (StopWatch c4Env c4Dw "x").1.store
            = persistedView (mapDelete c4Dw.activeChannels "x")) :=
  stopWatch_contract c4Env c4Dw "x" rfl rfl

/-- C5: if the remote subscription call inside `createWatch` fails, the error
is returned and the whole watcher state (registry and store) is exactly what
it was when `createWatch` started — no partial entry, nothing persisted; the
error propagates out of `WatchFile` unchanged. -/
theorem createWatch_failure_unchanged (env : Env) (dw : DriveWatcher) (fileId : String)
    (hfail : env.filesWatch fileId (watchRequest env dw.webhookURL) = none) :
    createWatch env dw fileId = (dw, none)
    ∧ WatchFile env dw fileId
        = (cleanupExpiredChannels env (cleanupOldChannels env dw fileId), none) := by
  constructor
  · unfold createWatch
    rw [hfail]
  · have hfail2 : env.filesWatch fileId (watchRequest env
        (cleanupExpiredChannels env (cleanupOldChannels env dw fileId)).webhookURL) = none := by
      rw [cleanupExpiredChannels_webhookURL, cleanupOldChannels_webhookURL]
      exact hfail
    unfold WatchFile createWatch
    rw [hfail2]

/-- C5 witness: remote subscription always errors; `createWatch` returns the
untouched state and `WatchFile` surfaces the failure. -/
theorem createWatch_failure_unchanged_witness :
    createWatch c5Env c5Dw "f" = (c5Dw, none)
    ∧ WatchFile c5Env c5Dw "f"
        = (cleanupExpiredChannels c5Env (cleanupOldChannels c5Env c5Dw "f"), none) :=
  createWatch_failure_unchanged c5Env c5Dw "f" rfl

/-- C6: with an honest filesystem, `saveState` succeeds, and `loadState` run
on the document it produced (into a fresh empty watcher) reproduces exactly
the in-memory registry; saving an empty registry leaves the document absent
rather than writing an empty one. -/
theorem save_load_round_trip (env : Env) (dw : DriveWatcher)
    (hw : env.writeOk = true) (hr : env.removeOk = true) :
    (saveState env dw).2 = none
    ∧ (loadState ⟨dw.webhookURL, [], (saveState env dw).1.store⟩).activeChannels
        = dw.activeChannels
    ∧ (dw.activeChannels = [] → (saveState env dw).1.store = none) := by
  have hstore := saveState_store_honest env dw hw hr
  by_cases hempty : dw.activeChannels.isEmpty
  · have he : dw.activeChannels = [] := List.isEmpty_iff.mp hempty
    refine ⟨?_, ?_, fun _ => ?_⟩
    · unfold saveState
      rw [if_pos hempty]
    · rw [hstore]
      unfold persistedView
      rw [if_pos hempty]
      rw [he]
      rfl
    · rw [hstore]
      unfold persistedView
      rw [if_pos hempty]
  · refine ⟨?_, ?_, fun he => ?_⟩
    · unfold saveState
      rw [if_neg hempty, if_pos hw]
    · rw [hstore]
      unfold persistedView
      rw [if_neg hempty]
      rfl
    · exact absurd (List.isEmpty_iff.mpr he) hempty

/-- C6 witness: saving a one-entry registry then loading it back yields the
same registry; the empty clause holds vacuously here. -/
theorem save_load_round_trip_witness :
    (saveState c6Env c6Dw).2 = none
    ∧ (loadState ⟨c6Dw.webhookURL, [], (saveState c6Env c6Dw).1.store⟩).activeChannels
        = c6Dw.activeChannels
    ∧ (c6Dw.activeChannels = [] → (saveState c6Env c6Dw).1.store = none) :=
  save_load_round_trip c6Env c6Dw rfl rfl

/-- C8: on a successful remote subscription, the `ChannelInfo` returned and
stored records the remote-returned `resourceId` and `expiration`, not the
locally requested expiration `now + MaxChannelDuration` that went into the
request. -/
theorem createWatch_records_remote (env : Env) (dw : DriveWatcher) (fileId : String)
    (result : WatchResult)
    (hwatch : env.filesWatch fileId (watchRequest env dw.webhookURL) = some result) :
    (createWatch env dw fileId).2 = some (remoteInfo result fileId)
    ∧ mapLookup (createWatch env dw fileId).1.activeChannels result.id
        = some (remoteInfo result fileId)
    ∧ (∀ info, (createWatch env dw fileId).2 = some info →
        info.Expiration = result.expiration ∧ info.ResourceId = result.resourceId)
    ∧ (watchRequest env dw.webhookURL).expiration = env.now + MaxChannelDuration := by
  obtain ⟨hreg, hret⟩ := createWatch_some env dw fileId result hwatch
  refine ⟨hret, ?_, ?_, rfl⟩
  · rw [hreg]
    exact mapLookup_insert_self _ _ _
  · intro info hinfo
    rw [hret] at hinfo
    cases hinfo
    exact ⟨rfl, rfl⟩

/-- C8 witness: the remote returns expiration 42 while the request asked for
`now + MaxChannelDuration`; the stored info carries 42. -/
theorem createWatch_records_remote_witness :
    ((createWatch c8Env c8Dw "f").2 = some (remoteInfo ⟨"c8", "r8", 42⟩ "f")
    ∧ mapLookup (createWatch c8Env c8Dw "f").1.activeChannels "c8"
        = some (remoteInfo ⟨"c8", "r8", 42⟩ "f")
    ∧ (∀ info, (createWatch c8Env c8Dw "f").2 = some info →
        info.Expiration = 42 ∧ info.ResourceId = "r8")
    ∧ (watchRequest c8Env c8Dw.webhookURL).expiration = c8Env.now + MaxChannelDuration)
    ∧ (42 : Int) ≠ c8Env.now + MaxChannelDuration :=
  ⟨createWatch_records_remote c8Env c8Dw "f" ⟨"c8", "r8", 42⟩ rfl, by decide⟩

/-- C10: `saveState` on an empty registry always returns success — the
outcome of removing the state file is discarded, so a failed delete is never
reported; the old document simply survives in that case. -/
theorem saveState_empty_swallows_remove_failure (env : Env) (dw : DriveWatcher)
    (hempty : dw.activeChannels = []) :
    (saveState env dw).2 = none
    ∧ (saveState env dw).1.store = (if env.removeOk then none else dw.store) := by
  have h : dw.activeChannels.isEmpty := List.isEmpty_iff.mpr hempty
  unfold saveState
  rw [if_pos h]
  exact ⟨rfl, rfl⟩

/-- C10 witness: the remove fails (`removeOk = false`) yet `saveState`
reports success and the stale document is still there. -/
theorem saveState_empty_swallows_remove_failure_witness :
    (saveState c10Env c10Dw).2 = none
    ∧ (saveState c10Env c10Dw).1.store = (if c10Env.removeOk then none else c10Dw.store) :=
  saveState_empty_swallows_remove_failure c10Env c10Dw rfl

/-- C7: every well-formed inbound POST event gets a 200 regardless of whether
the channel id is known; the downstream change handler is launched iff the
channel id is in the registry and the resource state is `change` or `update`;
the handler never mutates the watcher state. -/
theorem webhook_contract (dw : DriveWatcher) (n : DriveNotification) :
    (WebhookHandler dw .post n).2.status = 200
    ∧ ((WebhookHandler dw .post n).2.downstreamCalled = true ↔
        ((mapLookup dw.activeChannels n.ChannelId).isSome = true
          ∧ (n.ResourceState = "change" ∨ n.ResourceState = "update")))
    ∧ (WebhookHandler dw .post n).1 = dw := by
  by_cases hours : (mapLookup dw.activeChannels n.ChannelId).isSome
  · by_cases h1 : n.ResourceState = "sync"
    · simp [WebhookHandler, hours, h1]
    · by_cases h2 : n.ResourceState = "change"
      · simp [WebhookHandler, hours, h1, h2]
      · by_cases h3 : n.ResourceState = "update"
        · simp [WebhookHandler, hours, h1, h2, h3]
        · simp [WebhookHandler, hours, h1, h2, h3]
  · simp only [Bool.not_eq_true] at hours
    simp [WebhookHandler, hours]

/-- C9: every watcher state reachable from the empty registry by any sequence
of `createWatch`, `StopWatch`, `cleanupOldChannels`, `cleanupExpiredChannels`
keeps each entry under the key equal to its `Id` field. -/
theorem reachable_keys_match_ids (url : String) (ops : List Op) :
    keysMatchIds (runOps (initialWatcher url) ops).activeChannels = true :=
  runOps_keys ops (initialWatcher url) rfl

/-- C2: for any sequence of `WatchFile fileId` calls whose remote
subscription calls succeed with a future expiration, after each call the
registry has exactly one entry for `fileId` and its expiration lies in the
future (the initial registry only has to store each entry under its own id,
as every reachable state does). -/
theorem watch_idempotent_steady_state (dw : DriveWatcher) (fileId : String)
    (envs : List Env) (env : Env)
    (hkeys : keysMatchIds dw.activeChannels = true)
    (hgood : ∀ e ∈ envs ++ [env], ∃ r,
        e.filesWatch fileId (watchRequest e dw.webhookURL) = some r
        ∧ e.now < r.expiration) :
    ((watchSeq fileId dw (envs ++ [env])).activeChannels.filter
        (fun p => p.2.FileId == fileId)).length = 1
    ∧ ∀ p ∈ (watchSeq fileId dw (envs ++ [env])).activeChannels.filter
        (fun p => p.2.FileId == fileId), env.now < p.2.Expiration := by
  have hfold : watchSeq fileId dw (envs ++ [env])
      = (WatchFile env (watchSeq fileId dw envs) fileId).1 := by
    unfold watchSeq
    rw [List.foldl_append]
    rfl
  obtain ⟨r, hr, hexp⟩ := hgood env (by simp)
  have hkeys' := watchSeq_keys fileId envs dw hkeys
  have hurl' : (watchSeq fileId dw envs).webhookURL = dw.webhookURL :=
    watchSeq_webhookURL fileId envs dw
  have hsing := watchFile_filter_singleton env (watchSeq fileId dw envs) fileId r hkeys'
    (by rw [hurl']; exact hr)
  rw [hfold, hsing]
  refine ⟨rfl, ?_⟩
  intro p hp
  simp only [List.mem_singleton] at hp
  subst hp
  simpa [remoteInfo] using hexp

/-- C2 witness: a single `WatchFile` call from the empty registry leaves
exactly one entry for the file, expiring in the future. -/
theorem watch_idempotent_steady_state_witness :
    ((watchSeq "f" c2Dw ([] ++ [c2Env])).activeChannels.filter
        (fun p => p.2.FileId == "f")).length = 1
    ∧ ∀ p ∈ (watchSeq "f" c2Dw ([] ++ [c2Env])).activeChannels.filter
        (fun p => p.2.FileId == "f"), c2Env.now < p.2.Expiration :=
  watch_idempotent_steady_state c2Dw "f" [] c2Env rfl (by
    intro e he
    simp only [List.nil_append, List.mem_singleton] at he
    subst he
    exact ⟨⟨"c1", "r1", 100⟩, rfl, by decide⟩)

/-- C1 counterexample: channel "old" is registered, its remote stop fails
(`channelsStop` always false — `StopWatch` returns `remoteStopFailed` and
keeps the entry), `RenewWatch` proceeds to create "new"; afterwards "old" is
still in the registry, contradicting "the old id is absent even if the
remote stop call fails". -/
theorem renew_old_id_remains_cex :
    (StopWatch c1Env c1Dw "old").2 = some .remoteStopFailed
    ∧ mapLookup (RenewWatch c1Env c1Dw "f" "old").1.activeChannels "old" = some c1Info
    ∧ (RenewWatch c1Env c1Dw "f" "old").2 = some (remoteInfo ⟨"new", "r2", 100⟩ "f") := by
  decide

/-- C1 amended: `RenewWatch` returns the channel built from the remote
response (distinct from the old id whenever the remote-returned id is);
afterwards the old id is absent from the registry when it was absent before
or when its remote stop succeeded, but when the remote stop fails the old
entry remains registered. -/
theorem renew_amended (env : Env) (dw : DriveWatcher) (fileId oldChannelId : String)
    (result : WatchResult)
    (hwatch : env.filesWatch fileId (watchRequest env dw.webhookURL) = some result)
    (hne : result.id ≠ oldChannelId) :
    (RenewWatch env dw fileId oldChannelId).2 = some (remoteInfo result fileId)
    ∧ (mapLookup dw.activeChannels oldChannelId = none →
        mapLookup (RenewWatch env dw fileId oldChannelId).1.activeChannels oldChannelId
          = none)
    ∧ (∀ info, mapLookup dw.activeChannels oldChannelId = some info →
        env.channelsStop info.Id info.ResourceId = true →
        mapLookup (RenewWatch env dw fileId oldChannelId).1.activeChannels oldChannelId
          = none)
    ∧ (∀ info, mapLookup dw.activeChannels oldChannelId = some info →
        env.channelsStop info.Id info.ResourceId = false →
        mapLookup (RenewWatch env dw fileId oldChannelId).1.activeChannels oldChannelId
          = some info) := by
  have hurl : (StopWatch env dw oldChannelId).1.webhookURL = dw.webhookURL :=
    StopWatch_webhookURL env dw oldChannelId
  have hwatch1 : env.filesWatch fileId
      (watchRequest env (StopWatch env dw oldChannelId).1.webhookURL) = some result := by
    rw [hurl]; exact hwatch
  obtain ⟨hreg, hret⟩ := createWatch_some env _ fileId result hwatch1
  have hne' : oldChannelId ≠ result.id := fun h => hne h.symm
  refine ⟨hret, ?_, ?_, ?_⟩
  · intro hlook
    have hdw1 : (StopWatch env dw oldChannelId).1 = dw := by
      simp [StopWatch, hlook]
    unfold RenewWatch
    rw [hreg, mapLookup_insert_ne _ _ hne', hdw1, hlook]
  · intro info hlook hs
    have hdw1 : (StopWatch env dw oldChannelId).1.activeChannels
        = mapDelete dw.activeChannels oldChannelId := by
      simp only [StopWatch, hlook, hs, if_true]
      rw [saveState_activeChannels]
    unfold RenewWatch
    rw [hreg, mapLookup_insert_ne _ _ hne', hdw1, mapLookup_delete_self]
  · intro info hlook hs
    have hdw1 : (StopWatch env dw oldChannelId).1 = dw := by
      simp [StopWatch, hlook, hs]
    unfold RenewWatch
    rw [hreg, mapLookup_insert_ne _ _ hne', hdw1, hlook]

/-- C1 amended witness: same registry but the remote stop succeeds; the old
entry is gone and the renewed channel is returned. -/
theorem renew_amended_witness :
    (RenewWatch c1EnvOk c1Dw "f" "old").2 = some (remoteInfo ⟨"new", "r2", 100⟩ "f")
    ∧ (mapLookup c1Dw.activeChannels "old" = none →
        mapLookup (RenewWatch c1EnvOk c1Dw "f" "old").1.activeChannels "old" = none)
    ∧ (∀ info, mapLookup c1Dw.activeChannels "old" = some info →
        c1EnvOk.channelsStop info.Id info.ResourceId = true →
        mapLookup (RenewWatch c1EnvOk c1Dw "f" "old").1.activeChannels "old" = none)
    ∧ (∀ info, mapLookup c1Dw.activeChannels "old" = some info →
        c1EnvOk.channelsStop info.Id info.ResourceId = false →
        mapLookup (RenewWatch c1EnvOk c1Dw "f" "old").1.activeChannels "old" = some info) :=
  renew_amended c1EnvOk c1Dw "f" "old" ⟨"new", "r2", 100⟩ rfl (by decide)

/-- C3 counterexample: the only channel of file "f" is removed by
`cleanupOldChannels` although its remote stop failed, so the registry changed
from one entry to empty, yet the persisted document still holds the removed
entry — the cleanup did not persist. -/
theorem cleanup_old_changed_without_persist_cex :
    (cleanupOldChannels c3Env c3Dw "f").activeChannels = []
    ∧ c3Dw.activeChannels = [("a", c3Info)]
    ∧ (cleanupOldChannels c3Env c3Dw "f").store = some [("a", c3Info)] := by
  decide

/-- C3 amended: `cleanupExpiredChannels` persists whenever it removed an
entry; `cleanupOldChannels` persists only when at least one remote stop call
succeeded — when every remote stop fails it removes the matching entries from
the registry but leaves the persisted document untouched. -/
theorem cleanup_persistence_amended (env : Env) (dw : DriveWatcher) (fileId : String)
    (hw : env.writeOk = true) (hr : env.removeOk = true) :
    ((∃ p ∈ dw.activeChannels, p.2.Expiration < env.now) →
        (cleanupExpiredChannels env dw).store
          = persistedView (cleanupExpiredChannels env dw).activeChannels)
    ∧ ((∀ info ∈ (dw.activeChannels.filter (fun p => p.2.FileId == fileId)).map (·.2),
          env.channelsStop info.Id info.ResourceId = false) →
        (cleanupOldChannels env dw fileId).store = dw.store)
    ∧ ((∃ info ∈ (dw.activeChannels.filter (fun p => p.2.FileId == fileId)).map (·.2),
          env.channelsStop info.Id info.ResourceId = true) →
        (cleanupOldChannels env dw fileId).store
          = persistedView (cleanupOldChannels env dw fileId).activeChannels) := by
  refine ⟨?_, ?_, ?_⟩
  · rintro ⟨p, hp, hlt⟩
    have hmem : p ∈ dw.activeChannels.filter (fun q => decide (q.2.Expiration < env.now)) :=
      List.mem_filter.mpr ⟨hp, by simpa using hlt⟩
    have hpos : 0 < (dw.activeChannels.filter
        (fun q => decide (q.2.Expiration < env.now))).length :=
      List.length_pos_of_mem hmem
    simp only [cleanupExpiredChannels]
    rw [if_pos hpos]
    rw [saveState_store_honest env _ hw hr, saveState_activeChannels]
  · intro hall
    have hcnt : (stopLoop env
        ((dw.activeChannels.filter (fun p => p.2.FileId == fileId)).map (·.2))
        dw.activeChannels 0).2 = 0 :=
      stopLoop_count_const env _ dw.activeChannels 0 hall
    simp only [cleanupOldChannels]
    rw [if_neg (by rw [hcnt]; exact Nat.lt_irrefl 0)]
  · rintro ⟨info, hinfo, hstop⟩
    have hpos : 0 < (stopLoop env
        ((dw.activeChannels.filter (fun p => p.2.FileId == fileId)).map (·.2))
        dw.activeChannels 0).2 :=
      stopLoop_count_pos env _ dw.activeChannels 0 hstop hinfo
    simp only [cleanupOldChannels]
    rw [if_pos hpos]
    rw [saveState_store_honest env _ hw hr, saveState_activeChannels]

/-- C3 amended witness: with an honest filesystem, an expired channel makes
`cleanupExpiredChannels` persist, and a successful remote stop makes
`cleanupOldChannels` persist (both at the concrete one-entry registry). -/
theorem cleanup_persistence_amended_witness :
    ((∃ p ∈ c3Dw.activeChannels, p.2.Expiration < c3EnvOk.now) →
        (cleanupExpiredChannels c3EnvOk c3Dw).store
          = persistedView (cleanupExpiredChannels c3EnvOk c3Dw).activeChannels)
    ∧ ((∀ info ∈ (c3Dw.activeChannels.filter (fun p => p.2.FileId == "f")).map (·.2),
          c3EnvOk.channelsStop info.Id info.ResourceId = false) →
        (cleanupOldChannels c3EnvOk c3Dw "f").store = c3Dw.store)
    ∧ ((∃ info ∈ (c3Dw.activeChannels.filter (fun p => p.2.FileId == "f")).map (·.2),
          c3EnvOk.channelsStop info.Id info.ResourceId = true) →
        (cleanupOldChannels c3EnvOk c3Dw "f").store
          = persistedView (cleanupOldChannels c3EnvOk c3Dw "f").activeChannels) :=
  cleanup_persistence_amended c3EnvOk c3Dw "f" rfl rfl

end DriveWatch
